import Mathlib

/-!
Shallow embedding of the document ingestion & retrieval-grounded
question-answering pipeline of the Shishak repository.

The embedded code:
* `app/components/PDFExtractor.tsx` — the hidden WebView component driving
  PDF.js structured text extraction (`handleMessage`, `handleError`, the
  `loadHTML` failure path, and the `hasExtracted` completed-flag guard);
* `app/components/PDFOCRFallback.tsx` — the page-by-page OCR fallback loop
  (`processCurrentPage`, `finishExtraction`, `handleError`);
* `app/app/ai-test/pdf-qa.tsx` and the Ask screen (`handlePDFJSExtraction`
  in both) — acceptance of the structured result vs. routing to the
  fallback/error path;
* the Indexer/Retriever of `PDFQAService` and `needsOCRFallback` of
  `SmartPDFPipeline`, which are not among the provided sources and are
  modelled from the specification (each such definition says so in its
  doc comment).

Machine integers do not occur on the modelled paths; JS strings are
modelled as Lean `String` (lengths count characters), and fallible
adapter calls are modelled as `Option`-valued oracles.
-/

/-! ## Structured extraction results (`PDFJSExtractorService` consumers)

`PDFJSExtractionResult` is the record the WebView extraction reports:
`{ success, text, error, charCount }`. -/

structure PDFJSExtractionResult where
  success : Bool
  text : String
  error : Option String
  charCount : Nat

deriving instance DecidableEq, Repr for PDFJSExtractionResult

/-! ## The OCR fallback loop (`app/components/PDFOCRFallback.tsx`)

`processCurrentPage` renders the current page, waits, captures a raster
image and runs ML Kit OCR on it.  The capture + recognize step for page
`n` is modelled by an oracle `adapter : Nat → Option String`:
`adapter n = none` means the step threw (the `catch` branch of
`processCurrentPage` logs and skips the page), `adapter n = some t`
means OCR recognized text `t` on page `n`. -/

/-- The JS truthiness test `if (pageText.trim())` of
`processCurrentPage`: the trimmed page text is non-empty exactly when
the text contains a character that is not whitespace.  (`String.trim`
itself is not kernel-reducible in this Lean version, so the test is
embedded in this equivalent form.) -/
def trimmedNonempty (s : String) : Bool :=
  s.data.any (fun c => !c.isWhitespace)

/-- The entry `processCurrentPage` pushes onto `extractedTextsRef` for
page `n` with recognized text `t`:
`` `--- Page ${currentPage} ---\n${pageText}` ``. -/
def pageEntry (n : Nat) (t : String) : String :=
  "--- Page " ++ toString n ++ " ---\n" ++ t

/-- What one invocation of `processCurrentPage` contributes to the
accumulator `extractedTextsRef.current` for page `n`:
* the capture/recognize step threw (`adapter n = none`): the `catch`
  branch swallows the error and nothing is pushed;
* recognized text is whitespace-only: the `else` branch logs
  "No text found" and nothing is pushed;
* otherwise the marker entry is pushed. -/
def pageContribution (adapter : Nat → Option String) (n : Nat) : List String :=
  match adapter n with
  | none => []
  | some t => if trimmedNonempty t then [pageEntry n t] else []

/-- The page loop of `PDFOCRFallback`, started at `currentPage = c` with
accumulator `acc`.  Each step processes the current page and then either
advances (`setCurrentPage(currentPage + 1)`, while
`currentPage < Math.min(totalPages, maxPages)`) or stops.  The remaining
number of advances `Math.min(totalPages, maxPages) - currentPage` is the
structural recursion measure `fuel`.  Returns the pages on which the
render-capture-recognize step was invoked, and the final accumulator. -/
def ocrLoop (adapter : Nat → Option String) :
    Nat → Nat → List String → List Nat × List String
  | 0, c, acc => ([c], acc ++ pageContribution adapter c)
  | fuel + 1, c, acc =>
    let r := ocrLoop adapter fuel (c + 1) (acc ++ pageContribution adapter c)
    (c :: r.1, r.2)

/-- Pages on which the OCR loop invokes the render-capture-recognize
step, for a document of `totalPages` pages under the cap `maxPages`.
The loop starts at page 1 (`useState(1)`), so the fuel is
`Math.min(totalPages, maxPages) - 1`. -/
def ocrVisitedPages (adapter : Nat → Option String) (totalPages maxPages : Nat) : List Nat :=
  (ocrLoop adapter (min totalPages maxPages - 1) 1 []).1

/-- The final value of `extractedTextsRef.current` when the loop reaches
`finishExtraction`. -/
def ocrExtractedTexts (adapter : Nat → Option String) (totalPages maxPages : Nat) : List String :=
  (ocrLoop adapter (min totalPages maxPages - 1) 1 []).2

/-- The result record `onComplete` receives:
`{ success, text, pageCount, error }`. -/
structure OCRResult where
  success : Bool
  text : String
  pageCount : Nat
  error : Option String

deriving instance DecidableEq, Repr for OCRResult

/-- `finishExtraction` of `PDFOCRFallback`: joins the accumulated
per-page entries with `'\n\n'`, declares success when the combined text
is longer than 50 characters, reports `pageCount` as
`Math.min(totalPages, maxPages)`, and a `null` error exactly on
success. -/
def finishExtraction (texts : List String) (totalPages maxPages : Nat) : OCRResult :=
  let combinedText := String.intercalate "\n\n" texts
  let success : Bool := decide (combinedText.length > 50)
  { success := success
    text := combinedText
    pageCount := min totalPages maxPages
    error := if success then none
             else some "OCR could not extract meaningful text from the PDF" }

/-- A complete run of the OCR fallback on a loaded document: the loop
followed by `finishExtraction`. -/
def ocrRun (adapter : Nat → Option String) (totalPages maxPages : Nat) : OCRResult :=
  finishExtraction (ocrExtractedTexts adapter totalPages maxPages) totalPages maxPages

/-- `handleError` of `PDFOCRFallback`: a PDF render error is converted
into a terminal failure result (guarded by `hasCompleted`). -/
def ocrRenderErrorResult (message : Option String) : OCRResult :=
  { success := false
    text := ""
    pageCount := 0
    error := some ("Failed to render PDF for OCR: " ++ message.getD "Unknown error") }

/-! ## The structured extractor component (`app/components/PDFExtractor.tsx`)

The WebView posts messages whose payload `parseExtractionResult` either
parses into a `PDFJSExtractionResult` or rejects; the outcome of parsing
one message is modelled as `Option PDFJSExtractionResult`
(`parseExtractionResult` lives in `PDFJSExtractorService`, outside the
provided sources, so only its parse-or-throw outcome is modelled). -/

/-- The failure result the `catch` branch of `handleMessage` delivers
when the WebView message cannot be parsed. -/
def parseFailureResult : PDFJSExtractionResult :=
  { success := false
    text := ""
    error := some "Failed to parse extraction result"
    charCount := 0 }

/-- The failure result the `loadHTML` `catch` branch delivers when
PDF.js cannot be initialized. -/
def loadFailureResult (message : String) : PDFJSExtractionResult :=
  { success := false
    text := ""
    error := some ("Failed to initialize PDF.js: " ++ message)
    charCount := 0 }

/-- The failure result `handleError` of `PDFExtractor` delivers on a
WebView load error (with the native event's optional description). -/
def webViewErrorResult (description : Option String) : PDFJSExtractionResult :=
  { success := false
    text := ""
    error := some ("WebView failed to load: " ++ description.getD "Unknown error")
    charCount := 0 }

/-- Events a mounted `PDFExtractor` can receive during one ingestion:
a WebView message (already parsed-or-rejected), or a WebView error. -/
inductive ExtractorEvent where
  | message (parsed : Option PDFJSExtractionResult)
  | webViewError (description : Option String)

/-- One event step of `PDFExtractor`, over the `hasExtracted`
completed-flag: returns the new flag value and the list of results
delivered to `onExtracted` by this event.  This is a literal transcription
of `handleMessage` / `handleError`:
* `handleMessage` returns early when `hasExtracted.current` is set;
  on a parsed result it sets the flag and delivers; on a parse failure
  its `catch` branch delivers `parseFailureResult` WITHOUT setting the
  flag;
* `handleError` delivers (and sets the flag) only when the flag is
  clear. -/
def extractorStep (hasExtracted : Bool) :
    ExtractorEvent → Bool × List PDFJSExtractionResult
  | .message parsed =>
    if hasExtracted then (hasExtracted, [])
    else
      match parsed with
      | some result => (true, [result])
      | none => (hasExtracted, [parseFailureResult])
  | .webViewError description =>
    if hasExtracted then (hasExtracted, [])
    else (true, [webViewErrorResult description])

/-- All results delivered to `onExtracted` over a sequence of events in
one ingestion (the flag starts clear: `hasExtracted.current = false`). -/
def extractorDeliveries (events : List ExtractorEvent) : List PDFJSExtractionResult :=
  (events.foldl
    (fun st e =>
      let r := extractorStep st.1 e
      (r.1, st.2 ++ r.2))
    ((false, []) : Bool × List PDFJSExtractionResult)).2

/-! ## OCR fallback completion events (`PDFOCRFallback`)

`onComplete` is invoked from exactly two places, `finishExtraction` and
`handleError`, both of which first test and then set the `hasCompleted`
flag. -/

/-- Completion triggers of `PDFOCRFallback`: the loop finishing its last
page, or a PDF render error. -/
inductive FallbackEvent where
  | loopFinished (texts : List String) (totalPages maxPages : Nat)
  | renderError (message : Option String)

/-- One completion trigger of `PDFOCRFallback` over the `hasCompleted`
flag: both `finishExtraction` and `handleError` return without calling
`onComplete` when the flag is set, and set it before calling. -/
def fallbackStep (hasCompleted : Bool) : FallbackEvent → Bool × List OCRResult
  | .loopFinished texts totalPages maxPages =>
    if hasCompleted then (hasCompleted, [])
    else (true, [finishExtraction texts totalPages maxPages])
  | .renderError message =>
    if hasCompleted then (hasCompleted, [])
    else (true, [ocrRenderErrorResult message])

/-- All results delivered to `onComplete` over a sequence of completion
triggers in one ingestion. -/
def fallbackDeliveries (events : List FallbackEvent) : List OCRResult :=
  (events.foldl
    (fun st e =>
      let r := fallbackStep st.1 e
      (r.1, st.2 ++ r.2))
    ((false, []) : Bool × List OCRResult)).2

/-! ## Acceptance of the structured result

Two screens receive the `PDFJSExtractionResult` via `onExtracted`:
`handlePDFJSExtraction` in `app/app/ai-test/pdf-qa.tsx` (no OCR
fallback; failures suggest the camera) and `handlePDFJSExtraction` in
the Ask screen (which mounts `PDFOCRFallback` when
`needsOCRFallback(result)` holds). -/

/-- Modelled from the spec: `needsOCRFallback` lives in
`services/ai/SmartPDFPipeline`, which is not among the provided
sources.  Per the spec, `ExtractingStructured` transitions to
`Done(success)` when the adapter returns text whose length exceeds the
50-character viability threshold and reports no fatal error, and to
`NeedsFallback` when the adapter reports zero/low-length text, a parse
error, or an image-based signal — i.e. exactly when the structured
result is not viable. -/
def needsOCRFallback (result : PDFJSExtractionResult) : Bool :=
  !(result.success && decide (result.text.length > 50))

/-- Outcome of `handlePDFJSExtraction` on the Ask screen. -/
inductive AskOutcome where
  | triggerOCRFallback
  | acceptStructured (text : String)
  | noAction

deriving instance DecidableEq, Repr for AskOutcome

/-- `handlePDFJSExtraction` of the Ask screen: first checks
`needsOCRFallback(result)` and, if so, clears the PDF.js state and
mounts the OCR fallback; otherwise, when `result.success` holds and
`result.text.length > 50`, creates the document from `result.text`. -/
def handlePDFJSExtractionAsk (result : PDFJSExtractionResult) : AskOutcome :=
  if needsOCRFallback result then .triggerOCRFallback
  else if result.success && decide (result.text.length > 50) then
    .acceptStructured result.text
  else .noAction

/-- Outcome of `handlePDFJSExtraction` on the pdf-qa screen. -/
inductive PdfQaOutcome where
  | createDocument (text : String) (name : String)
  | showErrorAlert (message : String)

deriving instance DecidableEq, Repr for PdfQaOutcome

/-- `handlePDFJSExtraction` of `app/app/ai-test/pdf-qa.tsx`: when
`result.success && result.text.length > 50` the document is created
from the extracted text; otherwise an extraction-issue alert is shown
(with the result's error, or a default message suggesting the
camera). -/
def handlePDFJSExtractionPdfQa (result : PDFJSExtractionResult)
    (pendingPdfName : String) : PdfQaOutcome :=
  if result.success && decide (result.text.length > 50) then
    .createDocument result.text pendingPdfName
  else
    .showErrorAlert (result.error.getD
      "Could not extract text. The PDF may be image-based.\n\nTry using \"Scan with Camera\" instead.")

/-! ## Indexer and Retriever

Modelled from the spec: the Chunker, Indexer and Retriever live in
`services/ai/PDFQAService` (and `services/ai/rag`), which are not among
the provided sources — only their callers are.  The definitions below
follow the contracts of spec sections 4.3 and 4.4. -/

/-- Modelled from the spec: a chunk `{ id, documentId, ordinal, text,
pageStart, pageEnd }` derived from a document's raw text; its term
frequencies are derived from `text` by the tokenizer. -/
structure Chunk where
  id : Nat
  documentId : Nat
  ordinal : Nat
  text : String
  pageStart : Nat
  pageEnd : Nat

deriving instance DecidableEq, Repr for Chunk

/-- Modelled from the spec: the Indexer's "small stopword set". -/
def stopwordSet : List String :=
  ["the", "a", "an", "and", "or", "of", "to", "in", "is", "are", "it", "for", "on", "with"]

/-- Modelled from the spec: the Indexer's tokenizer — lowercase
alphanumeric terms, discarding the stopword set.  Non-alphanumeric
characters separate terms.  (Stated over the string's character list so
the tokenizer is kernel-reducible.) -/
def tokenize (text : String) : List String :=
  ((((text.data.map (fun c => if c.isAlphanum then c.toLower else ' ')).splitOn ' ').map
    (fun w => String.mk w)).filter (fun w => !w.isEmpty)).filter
      (fun w => !(stopwordSet.contains w))

/-- Modelled from the spec: per-chunk term frequency
`termFrequency(chunk, term)`. -/
def termFrequency (c : Chunk) (term : String) : Nat :=
  (tokenize c.text).count term

/-- Modelled from the spec: `DocumentIndex` — the ordered chunk
sequence together with the inverted `postings` mapping from normalized
term to the (chunkId, frequency) postings list. -/
structure DocumentIndex where
  chunks : List Chunk
  postings : List (String × List (Nat × Nat))

deriving instance DecidableEq, Repr for DocumentIndex

/-- Modelled from the spec: `build(chunks) → DocumentIndex`.  Tokenizes
each chunk's text, records per-chunk term frequencies, and builds the
inverted `postings` mapping over the (deduplicated, first-occurrence
ordered) vocabulary of the chunk sequence. -/
def build (chunks : List Chunk) : DocumentIndex :=
  { chunks := chunks
    postings :=
      ((chunks.flatMap (fun c => tokenize c.text)).dedup).map (fun term =>
        (term,
         (chunks.filter (fun c => decide (termFrequency c term > 0))).map
           (fun c => (c.id, termFrequency c term)))) }

/-- Modelled from the spec: `documentFrequency(term)` — the number of
chunks of the index containing the term. -/
def documentFrequency (index : DocumentIndex) (term : String) : Nat :=
  (index.chunks.filter (fun c => decide (termFrequency c term > 0))).length

/-- Modelled from the spec: the idf weight of a term.  The spec's
`idf(term) = log(1 + totalChunks / documentFrequency(term))` is replaced
by the rational weight `1 + totalChunks / documentFrequency(term)`
(the logarithm is not computable in the kernel; the properties under
verification — result count and term overlap — do not depend on the
numeric scale of the ranking). -/
def idfWeight (index : DocumentIndex) (term : String) : ℚ :=
  1 + (index.chunks.length : ℚ) / (documentFrequency index term : ℚ)

/-- Modelled from the spec: the TF-IDF-style chunk score
`score(chunk) = Σ_term termFrequency(chunk, term) * idf(term)` over the
query's terms. -/
def chunkScore (index : DocumentIndex) (queryTerms : List String) (c : Chunk) : ℚ :=
  queryTerms.foldl (fun s term => s + (termFrequency c term : ℚ) * idfWeight index term) 0

/-- Modelled from the spec: the ranking order — descending score, ties
broken by ascending chunk ordinal. -/
def rankedBefore (index : DocumentIndex) (queryTerms : List String) (c₁ c₂ : Chunk) : Prop :=
  chunkScore index queryTerms c₂ < chunkScore index queryTerms c₁ ∨
    (chunkScore index queryTerms c₁ = chunkScore index queryTerms c₂ ∧ c₁.ordinal ≤ c₂.ordinal)

instance (index : DocumentIndex) (queryTerms : List String) :
    DecidableRel (rankedBefore index queryTerms) := by
  intro c₁ c₂
  unfold rankedBefore
  infer_instance

/-- Modelled from the spec: `retrieve(index, question, k)`.  Tokenizes
the question with the Indexer's tokenizer; the candidates are the
chunks sharing at least one term with the question; candidates are
sorted by descending score (ties by ascending ordinal) and the top `k`
are returned with their scores. -/
def retrieve (index : DocumentIndex) (question : String) (k : Nat) : List (Chunk × ℚ) :=
  let queryTerms := (tokenize question).dedup
  let candidates := index.chunks.filter
    (fun c => queryTerms.any (fun term => decide (termFrequency c term > 0)))
  ((candidates.insertionSort (rankedBefore index queryTerms)).map
    (fun c => (c, chunkScore index queryTerms c))).take k

/-! ## Shared lemmas about the OCR loop -/

/-- Closed form of the OCR loop: starting at page `c` with `fuel`
remaining advances, the loop visits exactly `c, c+1, …, c+fuel` and
appends each visited page's contribution in order. -/
theorem ocrLoop_eq (adapter : Nat → Option String) (fuel c : Nat) (acc : List String) :
    ocrLoop adapter fuel c acc =
      (List.range' c (fuel + 1),
       acc ++ (List.range' c (fuel + 1)).flatMap (pageContribution adapter)) := by
  induction fuel generalizing c acc with
  | zero => simp [ocrLoop, List.range']
  | succ n ih =>
      rw [ocrLoop, ih]
      rw [List.range'_succ c (n + 1) 1]
      simp [List.flatMap_cons, List.append_assoc]

/-- `pageContribution` only inspects the adapter at its own page. -/
theorem pageContribution_congr {a₁ a₂ : Nat → Option String} (n : Nat)
    (h : a₁ n = a₂ n) : pageContribution a₁ n = pageContribution a₂ n := by
  unfold pageContribution
  rw [h]

/-- Accumulating over a page list with a fault injected at page `p` is
accumulating the fault-free contributions of the other pages. -/
theorem flatMap_pageContribution_update (adapter : Nat → Option String) (p : Nat)
    (l : List Nat) :
    l.flatMap (pageContribution (Function.update adapter p none)) =
      (l.filter (fun q => q != p)).flatMap (pageContribution adapter) := by
  induction l with
  | nil => rfl
  | cons q l ih =>
      rw [List.flatMap_cons, List.filter_cons, ih]
      by_cases hq : q = p
      · subst hq
        simp [pageContribution, Function.update_same]
      · rw [pageContribution_congr q (Function.update_noteq hq none adapter)]
        simp [hq, List.flatMap_cons]

/-! ## Claim theorems -/

/-- C2: a fault of the render/capture/recognize step at any page `p`
of the OCR fallback loop is non-fatal: the faulted page contributes
zero text, yet the loop still processes the full page range, and the
final accumulator is exactly the (fault-free) contribution of every
other visited page — a single bad page aborts neither the remaining
pages nor the document. -/
theorem ocr_page_fault_nonfatal (adapter : Nat → Option String)
    (p totalPages maxPages : Nat) :
    pageContribution (Function.update adapter p none) p = [] ∧
    ocrVisitedPages (Function.update adapter p none) totalPages maxPages =
      ocrVisitedPages adapter totalPages maxPages ∧
    ocrExtractedTexts (Function.update adapter p none) totalPages maxPages =
      ((ocrVisitedPages adapter totalPages maxPages).filter (fun q => q != p)).flatMap
        (pageContribution adapter) := by
  refine ⟨?_, ?_, ?_⟩
  · simp [pageContribution, Function.update_same]
  · unfold ocrVisitedPages
    rw [ocrLoop_eq, ocrLoop_eq]
  · unfold ocrExtractedTexts ocrVisitedPages
    rw [ocrLoop_eq, ocrLoop_eq]
    simp only [List.nil_append]
    exact flatMap_pageContribution_update adapter p _

/-- C3: on a loaded document of `totalPages` pages (at least one) under
a positive page cap `maxPages`, the OCR fallback loop invokes the
render-capture-recognize step on exactly the pages
`1, 2, …, min(totalPages, maxPages)`, in ascending order, and then
stops. -/
theorem ocr_visits_exactly_min_pages (adapter : Nat → Option String)
    (totalPages maxPages : Nat) (htotal : 1 ≤ totalPages) (hmax : 1 ≤ maxPages) :
    ocrVisitedPages adapter totalPages maxPages =
      List.range' 1 (min totalPages maxPages) := by
  unfold ocrVisitedPages
  rw [ocrLoop_eq]
  have hpos : 1 ≤ min totalPages maxPages := le_min htotal hmax
  have : min totalPages maxPages - 1 + 1 = min totalPages maxPages := by omega
  rw [this]

/-- Witness for C3 at a 3-page document with the default cap 10. -/
theorem ocr_visits_exactly_min_pages_witness :
    1 ≤ 3 ∧ 1 ≤ 10 ∧
      ocrVisitedPages (fun _ => none) 3 10 = List.range' 1 (min 3 10) :=
  ⟨by decide, by decide,
   ocr_visits_exactly_min_pages (fun _ => none) 3 10 (by decide) (by decide)⟩

/-- C4: when the OCR fallback loop finishes its last page, the terminal
result succeeds exactly when the accumulated per-page entries, joined
together, exceed 50 characters; the error field is `null` exactly on
success. -/
theorem ocr_terminal_success_iff (adapter : Nat → Option String)
    (totalPages maxPages : Nat) :
    ((ocrRun adapter totalPages maxPages).success = true ↔
      50 < (String.intercalate "\n\n"
        (ocrExtractedTexts adapter totalPages maxPages)).length) ∧
    ((ocrRun adapter totalPages maxPages).error = none ↔
      (ocrRun adapter totalPages maxPages).success = true) := by
  unfold ocrRun finishExtraction
  constructor
  · simp
  · by_cases h :
      50 < (String.intercalate "\n\n" (ocrExtractedTexts adapter totalPages maxPages)).length
    · simp [h]
    · simp [h]

/-- C1: a structured (PDF.js) result is accepted — the document is
created from its text — exactly when it reports success and its text
exceeds 50 characters; in that case the Ask screen does not mount the
OCR fallback, and otherwise both screens route to the fallback/error
path (the Ask screen triggers OCR, the pdf-qa screen shows the
extraction-issue alert). -/
theorem structured_result_acceptance (result : PDFJSExtractionResult)
    (pendingPdfName : String) :
    (handlePDFJSExtractionAsk result = AskOutcome.acceptStructured result.text ↔
      (result.success = true ∧ 50 < result.text.length)) ∧
    (handlePDFJSExtractionAsk result = AskOutcome.triggerOCRFallback ↔
      ¬(result.success = true ∧ 50 < result.text.length)) ∧
    (handlePDFJSExtractionPdfQa result pendingPdfName =
        PdfQaOutcome.createDocument result.text pendingPdfName ↔
      (result.success = true ∧ 50 < result.text.length)) ∧
    ((∃ message, handlePDFJSExtractionPdfQa result pendingPdfName =
        PdfQaOutcome.showErrorAlert message) ↔
      ¬(result.success = true ∧ 50 < result.text.length)) := by
  unfold handlePDFJSExtractionAsk handlePDFJSExtractionPdfQa needsOCRFallback
  by_cases hs : result.success = true
  · by_cases hl : 50 < result.text.length
    · simp [hs, hl]
    · simp [hs, hl]
  · simp [Bool.not_eq_true] at hs
    simp [hs]

/-- C5: every adapter-level error of the extraction pipeline — PDF.js
initialization failure, a WebView load error, an unparseable extraction
message, and a PDF render error in the OCR fallback — is converted into
a terminal result carrying `success = false`, empty text and a
non-empty error string, and is delivered through the ordinary completion
callback (the corresponding event step returns it as a delivery rather
than raising). -/
theorem adapter_errors_converted (initMessage : String)
    (description renderMessage : Option String) :
    ((loadFailureResult initMessage).success = false ∧
      (loadFailureResult initMessage).text = "" ∧
      ∃ e, (loadFailureResult initMessage).error = some e ∧ 0 < e.length) ∧
    (parseFailureResult.success = false ∧ parseFailureResult.text = "" ∧
      ∃ e, parseFailureResult.error = some e ∧ 0 < e.length) ∧
    ((webViewErrorResult description).success = false ∧
      (webViewErrorResult description).text = "" ∧
      ∃ e, (webViewErrorResult description).error = some e ∧ 0 < e.length) ∧
    ((ocrRenderErrorResult renderMessage).success = false ∧
      (ocrRenderErrorResult renderMessage).text = "" ∧
      ∃ e, (ocrRenderErrorResult renderMessage).error = some e ∧ 0 < e.length) ∧
    extractorStep false (ExtractorEvent.message none) = (false, [parseFailureResult]) ∧
    extractorStep false (ExtractorEvent.webViewError description) =
      (true, [webViewErrorResult description]) ∧
    fallbackStep false (FallbackEvent.renderError renderMessage) =
      (true, [ocrRenderErrorResult renderMessage]) := by
  refine ⟨⟨rfl, rfl, ?_⟩, ⟨rfl, rfl, ?_⟩, ⟨rfl, rfl, ?_⟩, ⟨rfl, rfl, ?_⟩, rfl, rfl, rfl⟩
  · refine ⟨_, rfl, ?_⟩
    rw [String.length_append]
    have h : 0 < "Failed to initialize PDF.js: ".length := by decide
    omega
  · exact ⟨_, rfl, by decide⟩
  · refine ⟨_, rfl, ?_⟩
    rw [String.length_append]
    have h : 0 < "WebView failed to load: ".length := by decide
    omega
  · refine ⟨_, rfl, ?_⟩
    rw [String.length_append]
    have h : 0 < "Failed to render PDF for OCR: ".length := by decide
    omega

/-- C6, counterexample: the truncation of a document by the page cap is
NOT observable from the extraction result.  A 3-page document OCR-run
under cap 2 (so page 3 is silently dropped) yields a result identical —
in every field, `pageCount` included — to the run on a 2-page document
with the same page texts: the caller cannot tell that pages were
omitted. -/
theorem truncation_not_observable :
    2 < 3 ∧ (2 : Nat) ≤ 2 ∧
      ocrRun (fun _ => some "0123456789abcdefghijklmnopqrstuvwxyz") 3 2 =
        ocrRun (fun _ => some "0123456789abcdefghijklmnopqrstuvwxyz") 2 2 := by
  refine ⟨by decide, by decide, ?_⟩
  rfl

/-- C6, amended: the extraction result reports in its `pageCount`
metadata the number of pages actually OCR-processed,
`min(totalPages, maxOcrPages)` — the truncated tail is dropped without
any further indication, and the result does not record the document's
total page count. -/
theorem ocr_result_pageCount (adapter : Nat → Option String)
    (totalPages maxPages : Nat) :
    (ocrRun adapter totalPages maxPages).pageCount = min totalPages maxPages := rfl

/-- C7, counterexample: a page whose recognized text is whitespace-only
(here a single space, on page 1) contributes nothing to the accumulator
— not its marker line followed by the recognized text, as the claim
states for every processed page. -/
theorem page_marker_whitespace_page :
    (fun _ => some " " : Nat → Option String) 1 = some " " ∧
    pageContribution (fun _ => some " ") 1 = [] ∧
    pageContribution (fun _ => some " ") 1 ≠
      ["--- Page " ++ toString 1 ++ " ---\n" ++ " "] := by
  refine ⟨rfl, by decide, by decide⟩

/-- C7, amended: for every processed page `n` whose recognized text is
non-empty after trimming whitespace, the text contributed to the
accumulator is exactly the marker line `--- Page n ---` followed by a
newline and the recognized text; pages whose recognized text is empty
or whitespace-only contribute nothing. -/
theorem ocr_page_contribution_marker (adapter : Nat → Option String) (n : Nat)
    (t : String) (hrec : adapter n = some t) :
    (trimmedNonempty t = true →
      pageContribution adapter n = ["--- Page " ++ toString n ++ " ---\n" ++ t]) ∧
    (trimmedNonempty t = false → pageContribution adapter n = []) := by
  unfold pageContribution
  rw [hrec]
  constructor
  · intro h
    simp [h, pageEntry]
  · intro h
    simp [h]

/-- Witness for C7's amended theorem, at page 3 with recognized text
`"hello"`. -/
theorem ocr_page_contribution_marker_witness :
    (fun _ => some "hello" : Nat → Option String) 3 = some "hello" ∧
    (trimmedNonempty "hello" = true →
      pageContribution (fun _ => some "hello") 3 =
        ["--- Page " ++ toString 3 ++ " ---\n" ++ "hello"]) ∧
    (trimmedNonempty "hello" = false →
      pageContribution (fun _ => some "hello") 3 = []) :=
  ⟨rfl,
   (ocr_page_contribution_marker (fun _ => some "hello") 3 "hello" rfl).1,
   (ocr_page_contribution_marker (fun _ => some "hello") 3 "hello" rfl).2⟩

/-- C8: `retrieve` returns at most `k` chunks, and every returned chunk
shares at least one normalized term with the question — zero-overlap
chunks are never returned, and a short candidate list is not padded. -/
theorem retrieve_at_most_k_and_overlapping (index : DocumentIndex)
    (question : String) (k : Nat) :
    (retrieve index question k).length ≤ k ∧
    ∀ pr ∈ retrieve index question k,
      ∃ term, term ∈ tokenize question ∧ term ∈ tokenize pr.1.text := by
  constructor
  · exact List.length_take_le k _
  · intro pr hpr
    have hpr' := List.mem_of_mem_take hpr
    obtain ⟨c, hc, rfl⟩ := List.mem_map.1 hpr'
    have hc' : c ∈ index.chunks.filter
        (fun c => ((tokenize question).dedup).any
          (fun term => decide (termFrequency c term > 0))) :=
      (List.perm_insertionSort _ _).subset hc
    have hany := (List.mem_filter.1 hc').2
    obtain ⟨term, hterm, hfreq⟩ := List.any_eq_true.1 hany
    refine ⟨term, List.mem_dedup.1 hterm, ?_⟩
    have hcount : 0 < (tokenize c.text).count term := of_decide_eq_true hfreq
    exact List.count_pos_iff.1 hcount

/-- C9: index building is deterministic and hence idempotent —
re-running `build` on an index's own chunk sequence reproduces its
`postings` mapping identically.  (In this pure embedding `build` is a
function of the chunk sequence alone, so two runs on equal input are
definitionally equal.) -/
theorem build_idempotent (chunks : List Chunk) :
    (build (build chunks).chunks).postings = (build chunks).postings := rfl

/-- C10, evaluated at the failing input: one ingestion of
`PDFExtractor` receiving first an unparseable WebView message and then
a well-formed one delivers TWO results to `onExtracted` — the
parse-failure `catch` branch of `handleMessage` does not set the
`hasExtracted` flag, so the completed-flag guard fails to suppress the
second delivery, contradicting the at-most-once intent of the guard
(`// Prevent duplicate callbacks`). -/
theorem extractor_delivers_twice_after_parse_failure :
    extractorDeliveries
        [ExtractorEvent.message none,
         ExtractorEvent.message
           (some { success := true, text := "T", error := none, charCount := 1 })] =
      [parseFailureResult,
       { success := true, text := "T", error := none, charCount := 1 }] ∧
    (extractorDeliveries
        [ExtractorEvent.message none,
         ExtractorEvent.message
           (some { success := true, text := "T", error := none, charCount := 1 })]).length
      = 2 := by
  exact ⟨rfl, rfl⟩
